import Mathlib

/-!
Verification of the retrieval, chunking, similarity, and console-loop behavior
of the vibecode-webgui Python templates, as a shallow embedding in Lean.

Each definition is translated from one of the template scripts under
`src/templates/python/`; the doc comment of each definition names the source
function it embeds.  External collaborators (the OpenAI embedding endpoint,
`input()`, the file system, SDK settings loaders) are modelled as parameters.
-/

namespace VibeCode

/-! ## Chunking — `rag-chat-app/app.py`, `load_and_chunk_knowledge_base` -/

/-- Python's `range(start, stop, step)` for a positive step: the arithmetic
progression `start, start + step, ...` of values below `stop`.  (Python raises
`ValueError` on `step == 0`; this model is only ever used with `0 < step`.) -/
def pyRange (start stop step : ℕ) : List ℕ :=
  if _h : start < stop ∧ 0 < step then
    start :: pyRange (start + step) stop step
  else
    []
termination_by stop - start
decreasing_by omega

theorem pyRange_nil {start stop : ℕ} (step : ℕ) (h : stop ≤ start) :
    pyRange start stop step = [] := by
  rw [pyRange]
  simp [show ¬(start < stop ∧ 0 < step) from fun hc => absurd hc.1 (Nat.not_lt.mpr h)]

theorem pyRange_cons {start stop step : ℕ} (h1 : start < stop) (h2 : 0 < step) :
    pyRange start stop step = start :: pyRange (start + step) stop step := by
  rw [pyRange]
  simp [h1, h2]

theorem pyRange_zero_step {start stop : ℕ} : pyRange start stop 0 = [] := by
  rw [pyRange]
  simp

/-- Shifting the start and the stop of a `pyRange` by `k` shifts every element. -/
theorem pyRange_shift (step k : ℕ) :
    ∀ (n stop s : ℕ), stop ≤ s + k + n →
      pyRange (s + k) stop step = (pyRange s (stop - k) step).map (fun i => i + k) := by
  intro n
  induction n with
  | zero =>
    intro stop s h
    rw [pyRange_nil step (by omega), pyRange_nil step (by omega)]
    simp
  | succ n ih =>
    intro stop s h
    by_cases hstep : 0 < step
    · by_cases hlt : s + k < stop
      · rw [pyRange_cons hlt hstep, pyRange_cons (show s < stop - k by omega) hstep]
        have htail := ih stop (s + step) (by omega)
        rw [show s + step + k = s + k + step by omega] at htail
        simp only [List.map_cons, htail]
      · rw [pyRange_nil step (by omega), pyRange_nil step (by omega)]
        simp
    · have hz : step = 0 := by omega
      subst hz
      rw [pyRange_zero_step, pyRange_zero_step]
      simp

/-- Length of a `pyRange` with positive step is the ceiling of the span. -/
theorem pyRange_length (step : ℕ) (hs : 0 < step) :
    ∀ (n stop start : ℕ), stop ≤ start + n →
      (pyRange start stop step).length = (stop - start + step - 1) / step := by
  intro n
  induction n with
  | zero =>
    intro stop start h
    rw [pyRange_nil step (by omega)]
    have : stop - start = 0 := by omega
    rw [this]
    simp [Nat.div_eq_of_lt (show step - 1 < step by omega)]
  | succ n ih =>
    intro stop start h
    by_cases hlt : start < stop
    · rw [pyRange_cons hlt hs]
      have htail := ih stop (start + step) (by omega)
      simp only [List.length_cons, htail]
      have hd : 1 ≤ stop - start := by omega
      have hr : stop - start + step - 1 = (stop - start - 1) + step := by omega
      rw [hr, Nat.add_div_right _ hs]
      by_cases hc : step ≤ stop - start
      · have : stop - (start + step) + step - 1 = stop - start - 1 := by omega
        rw [this]
      · have h0 : stop - (start + step) = 0 := by omega
        rw [h0]
        rw [Nat.div_eq_of_lt (show 0 + step - 1 < step by omega),
          Nat.div_eq_of_lt (show stop - start - 1 < step by omega)]
    · rw [pyRange_nil step (by omega)]
      have : stop - start = 0 := by omega
      rw [this]
      simp [Nat.div_eq_of_lt (show step - 1 < step by omega)]

/-- Function `load_and_chunk_knowledge_base` from `rag-chat-app/app.py` (file contents
passed in as `text`):
`chunks = [text[i:i+chunk_size] for i in range(0, len(text), chunk_size)]`. -/
def load_and_chunk_knowledge_base (text : List Char) (chunk_size : ℕ) : List (List Char) :=
  (pyRange 0 text.length chunk_size).map (fun i => (text.drop i).take chunk_size)

theorem load_and_chunk_nil (C : ℕ) : load_and_chunk_knowledge_base [] C = [] := by
  simp [load_and_chunk_knowledge_base, pyRange_nil C (Nat.le_refl 0)]

/-- Unfolding equation: a nonempty text chunks into its first `C` characters
followed by the chunks of the rest. -/
theorem load_and_chunk_cons {t : List Char} {C : ℕ} (hC : 0 < C) (ht : t ≠ []) :
    load_and_chunk_knowledge_base t C =
      t.take C :: load_and_chunk_knowledge_base (t.drop C) C := by
  have hL : 0 < t.length := List.length_pos.mpr ht
  unfold load_and_chunk_knowledge_base
  rw [pyRange_cons hL hC]
  simp only [List.map_cons, List.drop_zero]
  congr 1
  have hshift := pyRange_shift C C t.length t.length 0 (by omega)
  rw [Nat.zero_add] at hshift
  simp only [Nat.zero_add]
  rw [hshift, List.map_map]
  have hlen : (t.drop C).length = t.length - C := List.length_drop C t
  rw [← hlen]
  apply List.map_congr_left
  intro i _
  simp only [Function.comp_apply]
  rw [List.drop_drop]
  congr 2
  omega

theorem chunk_join_aux {C : ℕ} (hC : 0 < C) :
    ∀ (n : ℕ) (t : List Char), t.length ≤ n →
      (load_and_chunk_knowledge_base t C).flatten = t := by
  intro n
  induction n with
  | zero =>
    intro t h
    have ht : t = [] := List.eq_nil_of_length_eq_zero (Nat.le_zero.mp h)
    subst ht
    simp [load_and_chunk_nil]
  | succ n ih =>
    intro t h
    rcases eq_or_ne t [] with rfl | ht
    · simp [load_and_chunk_nil]
    · rw [load_and_chunk_cons hC ht, List.flatten_cons,
        ih (t.drop C) (by
          have hpos : 0 < t.length := List.length_pos.mpr ht
          simp only [List.length_drop]
          omega)]
      exact List.take_append_drop C t

theorem chunk_sizes_aux {C : ℕ} (hC : 0 < C) :
    ∀ (n : ℕ) (t : List Char), t.length ≤ n →
      (∀ c ∈ (load_and_chunk_knowledge_base t C).dropLast, c.length = C) ∧
      (∀ c, (load_and_chunk_knowledge_base t C).getLast? = some c →
        1 ≤ c.length ∧ c.length ≤ C) := by
  intro n
  induction n with
  | zero =>
    intro t h
    have ht : t = [] := List.eq_nil_of_length_eq_zero (Nat.le_zero.mp h)
    subst ht
    simp [load_and_chunk_nil]
  | succ n ih =>
    intro t h
    rcases eq_or_ne t [] with rfl | ht
    · simp [load_and_chunk_nil]
    · have hpos : 0 < t.length := List.length_pos.mpr ht
      have hcons := load_and_chunk_cons (t := t) hC ht
      by_cases hd : t.drop C = []
      · have hle : t.length ≤ C := by
          have := List.length_drop C t
          rw [hd] at this
          simp at this
          omega
        rw [hcons, hd, load_and_chunk_nil]
        constructor
        · intro c hc
          simp at hc
        · intro c hc
          simp only [List.getLast?_singleton, Option.some.injEq] at hc
          subst hc
          simp only [List.length_take]
          omega
      · have h2 := load_and_chunk_cons (t := t.drop C) hC hd
        have hCle : C < t.length := by
          by_contra hx
          exact hd (List.drop_eq_nil_of_le (by omega))
        obtain ⟨ih1, ih2⟩ := ih (t.drop C) (by
          simp only [List.length_drop]
          omega)
        rw [hcons, h2]
        rw [h2] at ih1 ih2
        constructor
        · intro c hc
          rw [List.dropLast_cons₂] at hc
          rcases List.mem_cons.mp hc with rfl | hc'
          · simp only [List.length_take]
            omega
          · exact ih1 c hc'
        · intro c hc
          rw [List.getLast?_cons_cons] at hc
          exact ih2 c hc

/-- C3: for every document text and every chunk size `C > 0`, concatenating in
order all chunks produced by `load_and_chunk_knowledge_base` reproduces the
original document exactly. -/
theorem chunk_concat_reproduces_document (t : List Char) (C : ℕ) (hC : 0 < C) :
    (load_and_chunk_knowledge_base t C).flatten = t :=
  chunk_join_aux hC t.length t (Nat.le_refl _)

/-- Witness for C3 at the concrete document "abcde" with chunk size 2. -/
theorem chunk_concat_reproduces_document_witness :
    0 < 2 ∧
      (load_and_chunk_knowledge_base ['a', 'b', 'c', 'd', 'e'] 2).flatten =
        ['a', 'b', 'c', 'd', 'e'] :=
  ⟨by decide, chunk_concat_reproduces_document ['a', 'b', 'c', 'd', 'e'] 2 (by decide)⟩

/-- C4: chunking a document of length `L` with chunk size `C > 0` produces
exactly `ceil(L/C) = (L + C - 1) / C` chunks; every chunk except possibly the
last has length exactly `C`, and the last has length between 1 and `C`. -/
theorem chunk_count_and_lengths (t : List Char) (C : ℕ) (hC : 0 < C) :
    (load_and_chunk_knowledge_base t C).length = (t.length + C - 1) / C ∧
    (∀ c ∈ (load_and_chunk_knowledge_base t C).dropLast, c.length = C) ∧
    (∀ c, (load_and_chunk_knowledge_base t C).getLast? = some c →
      1 ≤ c.length ∧ c.length ≤ C) := by
  refine ⟨?_, chunk_sizes_aux hC t.length t (Nat.le_refl _)⟩
  unfold load_and_chunk_knowledge_base
  rw [List.length_map, pyRange_length C hC t.length t.length 0 (by omega)]
  rw [Nat.sub_zero]

/-- Witness for C4 at the concrete document "abcde" with chunk size 2:
3 chunks, sizes 2, 2, 1. -/
theorem chunk_count_and_lengths_witness :
    0 < 2 ∧
      ((load_and_chunk_knowledge_base ['a', 'b', 'c', 'd', 'e'] 2).length =
          (5 + 2 - 1) / 2 ∧
        (∀ c ∈ (load_and_chunk_knowledge_base ['a', 'b', 'c', 'd', 'e'] 2).dropLast,
          c.length = 2) ∧
        (∀ c, (load_and_chunk_knowledge_base ['a', 'b', 'c', 'd', 'e'] 2).getLast? = some c →
          1 ≤ c.length ∧ c.length ≤ 2)) :=
  ⟨by decide, chunk_count_and_lengths ['a', 'b', 'c', 'd', 'e'] 2 (by decide)⟩

/-! ## Similarity ranking

The two retrieval templates rank candidates by cosine similarity to the query.
A candidate is modelled as a pair `(i, s)` of its position `i` in the input
dataset / chunk list and its similarity score `s` (the value the script
computes with `cosine_similarity`; scores are taken as exact rationals).
-/

/-- Constant `SIMILARITIES_RESULTS_THRESHOLD` from `semantic-search-app/app.py`. -/
def SIMILARITIES_RESULTS_THRESHOLD : ℚ := 0.75

/-- Constant `TOP_K_RESULTS` from `rag-chat-app/app.py`. -/
def TOP_K_RESULTS : ℕ := 3

/-- Tag each score with its position in the input, starting at `n`: the
DataFrame row index of `semantic-search-app` / the chunk index of
`rag-chat-app`. -/
def idxFrom (n : ℕ) : List ℚ → List (ℕ × ℚ)
  | [] => []
  | s :: l => (n, s) :: idxFrom (n + 1) l

theorem mem_idxFrom_le {p : ℕ × ℚ} :
    ∀ (l : List ℚ) (n : ℕ), p ∈ idxFrom n l → n ≤ p.1 := by
  intro l
  induction l with
  | nil => intro n hp; simp [idxFrom] at hp
  | cons s l ih =>
    intro n hp
    rcases List.mem_cons.mp hp with rfl | hp'
    · simp
    · exact Nat.le_of_succ_le (ih (n + 1) hp')

theorem idxFrom_pairwise_lt :
    ∀ (l : List ℚ) (n : ℕ), (idxFrom n l).Pairwise (fun a b => a.1 < b.1) := by
  intro l
  induction l with
  | nil => intro n; simp [idxFrom]
  | cons s l ih =>
    intro n
    refine List.pairwise_cons.mpr ⟨?_, ih (n + 1)⟩
    intro p hp
    exact Nat.lt_of_lt_of_le (Nat.lt_succ_self n) (mem_idxFrom_le l (n + 1) hp)

theorem mem_idxFrom_snd {p : ℕ × ℚ} :
    ∀ (l : List ℚ) (n : ℕ), p ∈ idxFrom n l → p.2 ∈ l := by
  intro l
  induction l with
  | nil => intro n hp; simp [idxFrom] at hp
  | cons s l ih =>
    intro n hp
    rcases List.mem_cons.mp hp with rfl | hp'
    · simp
    · exact List.mem_cons_of_mem s (ih (n + 1) hp')

/-- Stable insertion of a candidate into a list sorted by non-increasing
score: the new element, which comes from earlier in the input, is placed
before every element with an equal or smaller score. -/
def insertDesc (x : ℕ × ℚ) : List (ℕ × ℚ) → List (ℕ × ℚ)
  | [] => [x]
  | y :: l => if y.2 ≤ x.2 then x :: y :: l else y :: insertDesc x l

/-- Model of `DataFrame.sort_values(by="similarity", ascending=False)` in
`semantic-search-app/app.py` line 88, as a stable sort on the similarity
column (equal scores keep their input order). -/
def sort_values_desc : List (ℕ × ℚ) → List (ℕ × ℚ)
  | [] => []
  | x :: l => insertDesc x (sort_values_desc l)

theorem insertDesc_perm (x : ℕ × ℚ) :
    ∀ l : List (ℕ × ℚ), List.Perm (insertDesc x l) (x :: l) := by
  intro l
  induction l with
  | nil => simp [insertDesc]
  | cons y l ih =>
    by_cases h : y.2 ≤ x.2
    · simp [insertDesc, h]
    · simp only [insertDesc, if_neg h]
      exact (ih.cons y).trans (List.Perm.swap x y l)

theorem sort_values_desc_perm : ∀ l : List (ℕ × ℚ), List.Perm (sort_values_desc l) l := by
  intro l
  induction l with
  | nil => simp [sort_values_desc]
  | cons x l ih =>
    exact (insertDesc_perm x (sort_values_desc l)).trans (ih.cons x)

/-- Strict descending order on candidates: larger score first, ties broken by
smaller input index first. -/
def lexDesc (a b : ℕ × ℚ) : Prop := b.2 < a.2 ∨ (a.2 = b.2 ∧ a.1 < b.1)

theorem insertDesc_pairwise {x : ℕ × ℚ} :
    ∀ {l : List (ℕ × ℚ)}, l.Pairwise lexDesc → (∀ y ∈ l, x.1 < y.1) →
      (insertDesc x l).Pairwise lexDesc := by
  intro l
  induction l with
  | nil =>
    intro _ _
    simp [insertDesc, lexDesc]
  | cons y l ih =>
    intro hl hx
    obtain ⟨hy, hl'⟩ := List.pairwise_cons.mp hl
    by_cases h : y.2 ≤ x.2
    · simp only [insertDesc, if_pos h]
      refine List.pairwise_cons.mpr ⟨?_, hl⟩
      intro z hz
      rcases List.mem_cons.mp hz with rfl | hz'
      · rcases lt_or_eq_of_le h with hlt | heq
        · exact Or.inl hlt
        · exact Or.inr ⟨heq.symm, hx z (List.mem_cons_self z l)⟩
      · rcases hy z hz' with hlt | ⟨heq, _⟩
        · exact Or.inl (lt_of_lt_of_le hlt h)
        · rcases lt_or_eq_of_le h with hlt2 | heq2
          · exact Or.inl (heq ▸ hlt2)
          · exact Or.inr ⟨heq2.symm.trans heq, hx z (List.mem_cons_of_mem y hz')⟩
    · simp only [insertDesc, if_neg h]
      refine List.pairwise_cons.mpr ⟨?_, ih hl' (fun z hz => hx z (List.mem_cons_of_mem y hz))⟩
      intro z hz
      have hz2 : z = x ∨ z ∈ l := by
        have := (insertDesc_perm x l).mem_iff.mp hz
        simpa using this
      rcases hz2 with rfl | hz'
      · exact Or.inl (lt_of_not_le h)
      · exact hy z hz'

theorem sort_values_desc_pairwise :
    ∀ {l : List (ℕ × ℚ)}, l.Pairwise (fun a b => a.1 < b.1) →
      (sort_values_desc l).Pairwise lexDesc := by
  intro l
  induction l with
  | nil =>
    intro _
    simp [sort_values_desc]
  | cons x l ih =>
    intro hl
    obtain ⟨hx, hl'⟩ := List.pairwise_cons.mp hl
    refine insertDesc_pairwise (ih hl') ?_
    intro y hy
    exact hx y ((sort_values_desc_perm l).mem_iff.mp hy)

/-- Function `get_similar_videos` from `semantic-search-app/app.py` lines 73-90, with
the similarity column passed in as `sims` (one score per dataset row, in row
order):
`mask = sims >= SIMILARITIES_RESULTS_THRESHOLD;`
`videos = videos[mask].sort_values(by="similarity", ascending=False).head(rows)`. -/
def get_similar_videos (sims : List ℚ) (rows : ℕ) : List (ℕ × ℚ) :=
  (sort_values_desc
    ((idxFrom 0 sims).filter (fun r => decide (SIMILARITIES_RESULTS_THRESHOLD ≤ r.2)))).take
    rows

/-- Stable insertion for ascending order (model of a stable `np.argsort`). -/
def insertAsc (x : ℕ × ℚ) : List (ℕ × ℚ) → List (ℕ × ℚ)
  | [] => [x]
  | y :: l => if x.2 ≤ y.2 then x :: y :: l else y :: insertAsc x l

/-- Model of `sims.argsort()` in `rag-chat-app/app.py` line 100, kept as
(index, score) pairs: the candidates in non-decreasing score order.  The sort
is modelled as stable (numpy's introsort is insertion sort below 16 elements,
so the model is exact on small inputs). -/
def np_argsort : List (ℕ × ℚ) → List (ℕ × ℚ)
  | [] => []
  | x :: l => insertAsc x (np_argsort l)

theorem insertAsc_perm (x : ℕ × ℚ) :
    ∀ l : List (ℕ × ℚ), List.Perm (insertAsc x l) (x :: l) := by
  intro l
  induction l with
  | nil => simp [insertAsc]
  | cons y l ih =>
    by_cases h : x.2 ≤ y.2
    · simp [insertAsc, h]
    · simp only [insertAsc, if_neg h]
      exact (ih.cons y).trans (List.Perm.swap x y l)

theorem np_argsort_perm : ∀ l : List (ℕ × ℚ), List.Perm (np_argsort l) l := by
  intro l
  induction l with
  | nil => simp [np_argsort]
  | cons x l ih =>
    exact (insertAsc_perm x (np_argsort l)).trans (ih.cons x)

/-- Strict ascending order on candidates: smaller score first, ties broken by
smaller input index first (the stable `argsort` order). -/
def lexAsc (a b : ℕ × ℚ) : Prop := a.2 < b.2 ∨ (a.2 = b.2 ∧ a.1 < b.1)

theorem insertAsc_pairwise {x : ℕ × ℚ} :
    ∀ {l : List (ℕ × ℚ)}, l.Pairwise lexAsc → (∀ y ∈ l, x.1 < y.1) →
      (insertAsc x l).Pairwise lexAsc := by
  intro l
  induction l with
  | nil =>
    intro _ _
    simp [insertAsc, lexAsc]
  | cons y l ih =>
    intro hl hx
    obtain ⟨hy, hl'⟩ := List.pairwise_cons.mp hl
    by_cases h : x.2 ≤ y.2
    · simp only [insertAsc, if_pos h]
      refine List.pairwise_cons.mpr ⟨?_, hl⟩
      intro z hz
      rcases List.mem_cons.mp hz with rfl | hz'
      · rcases lt_or_eq_of_le h with hlt | heq
        · exact Or.inl hlt
        · exact Or.inr ⟨heq, hx z (List.mem_cons_self z l)⟩
      · rcases hy z hz' with hlt | ⟨heq, _⟩
        · exact Or.inl (lt_of_le_of_lt h hlt)
        · rcases lt_or_eq_of_le h with hlt2 | heq2
          · exact Or.inl (heq ▸ hlt2)
          · exact Or.inr ⟨heq2.trans heq, hx z (List.mem_cons_of_mem y hz')⟩
    · simp only [insertAsc, if_neg h]
      refine List.pairwise_cons.mpr ⟨?_, ih hl' (fun z hz => hx z (List.mem_cons_of_mem y hz))⟩
      intro z hz
      have hz2 : z = x ∨ z ∈ l := by
        have := (insertAsc_perm x l).mem_iff.mp hz
        simpa using this
      rcases hz2 with rfl | hz'
      · exact Or.inl (lt_of_not_le h)
      · exact hy z hz'

theorem np_argsort_pairwise :
    ∀ {l : List (ℕ × ℚ)}, l.Pairwise (fun a b => a.1 < b.1) →
      (np_argsort l).Pairwise lexAsc := by
  intro l
  induction l with
  | nil =>
    intro _
    simp [np_argsort]
  | cons x l ih =>
    intro hl
    obtain ⟨hx, hl'⟩ := List.pairwise_cons.mp hl
    refine insertAsc_pairwise (ih hl') ?_
    intro y hy
    exact hx y ((np_argsort_perm l).mem_iff.mp hy)

/-- The top-K selection of `retrieve_context` in `rag-chat-app/app.py` line
100, kept as (index, score) pairs:
`top_indices = sims.argsort()[-TOP_K_RESULTS:][::-1]`
(`l[-K:]` is `drop (length - K)`, `[::-1]` is `reverse`). -/
def ragTopPairs (sims : List ℚ) : List (ℕ × ℚ) :=
  ((np_argsort (idxFrom 0 sims)).drop
    ((np_argsort (idxFrom 0 sims)).length - TOP_K_RESULTS)).reverse

/-- Function `retrieve_context` from `rag-chat-app/app.py` lines 92-104, with the
similarity row `sims` (one score per chunk) passed in:
`context = "\n\n---\n\n".join([chunks[i] for i in top_indices])`. -/
def retrieve_context (sims : List ℚ) (chunks : List String) : String :=
  String.intercalate "\n\n---\n\n" ((ragTopPairs sims).map (fun p => chunks.getD p.1 ""))

theorem lexDesc_imp_le {a b : ℕ × ℚ} (h : lexDesc a b) : b.2 ≤ a.2 := by
  rcases h with h | ⟨h, _⟩
  · exact le_of_lt h
  · exact le_of_eq h.symm

theorem lexAsc_imp_le {a b : ℕ × ℚ} (h : lexAsc a b) : a.2 ≤ b.2 := by
  rcases h with h | ⟨h, _⟩
  · exact le_of_lt h
  · exact le_of_eq h

theorem get_similar_videos_sorted_lex (sims : List ℚ) (rows : ℕ) :
    (get_similar_videos sims rows).Pairwise lexDesc := by
  unfold get_similar_videos
  exact (sort_values_desc_pairwise
    (List.Pairwise.filter (fun r => decide (SIMILARITIES_RESULTS_THRESHOLD ≤ r.2))
      (idxFrom_pairwise_lt sims 0))).sublist (List.take_sublist _ _)

theorem ragTopPairs_sorted_flipLex (sims : List ℚ) :
    (ragTopPairs sims).Pairwise (fun a b => lexAsc b a) := by
  unfold ragTopPairs
  refine List.pairwise_reverse.mpr ?_
  exact (np_argsort_pairwise (idxFrom_pairwise_lt sims 0)).sublist (List.drop_sublist _ _)

/-- C1 (amended): the semantic-search template returns only rows whose
similarity is at least `SIMILARITIES_RESULTS_THRESHOLD` (0.75), in
non-increasing similarity order, truncated to at most 5 rows; the RAG template
returns its `TOP_K_RESULTS` (3) chunks in non-increasing similarity order but
applies no threshold. -/
theorem retrieval_threshold_order_topk (sims : List ℚ) :
    (∀ r ∈ get_similar_videos sims 5, SIMILARITIES_RESULTS_THRESHOLD ≤ r.2) ∧
    (get_similar_videos sims 5).Pairwise (fun a b => b.2 ≤ a.2) ∧
    (get_similar_videos sims 5).length ≤ 5 ∧
    (ragTopPairs sims).Pairwise (fun a b => b.2 ≤ a.2) ∧
    (ragTopPairs sims).length ≤ TOP_K_RESULTS := by
  refine ⟨?_, ?_, ?_, ?_, ?_⟩
  · intro r hr
    have h1 : r ∈ sort_values_desc
        ((idxFrom 0 sims).filter (fun r => decide (SIMILARITIES_RESULTS_THRESHOLD ≤ r.2))) :=
      List.take_subset _ _ hr
    have h2 := (sort_values_desc_perm _).mem_iff.mp h1
    have h3 := List.of_mem_filter h2
    simpa using h3
  · exact (get_similar_videos_sorted_lex sims 5).imp (fun h => lexDesc_imp_le h)
  · exact List.length_take_le 5 _
  · exact (ragTopPairs_sorted_flipLex sims).imp (fun h => lexAsc_imp_le h)
  · simp only [ragTopPairs, TOP_K_RESULTS, List.length_reverse, List.length_drop]
    omega

/-- Witness for C1 (amended) at the concrete similarity column
`[0.8, 0.2, 0.9]`. -/
theorem retrieval_threshold_order_topk_witness :
    (∀ r ∈ get_similar_videos [0.8, 0.2, 0.9] 5, SIMILARITIES_RESULTS_THRESHOLD ≤ r.2) ∧
    (get_similar_videos [0.8, 0.2, 0.9] 5).Pairwise (fun a b => b.2 ≤ a.2) ∧
    (get_similar_videos [0.8, 0.2, 0.9] 5).length ≤ 5 ∧
    (ragTopPairs [0.8, 0.2, 0.9]).Pairwise (fun a b => b.2 ≤ a.2) ∧
    (ragTopPairs [0.8, 0.2, 0.9]).length ≤ TOP_K_RESULTS :=
  retrieval_threshold_order_topk [0.8, 0.2, 0.9]

/-- Counterexample to C1 as stated: `retrieve_context` in the RAG template has
no similarity threshold.  With every chunk scoring 0 or below — far below the
0.75 threshold the claim names — all three chunks are still returned. -/
theorem rag_retrieval_ignores_threshold :
    ragTopPairs [0, -1, -2] = [(0, 0), (1, -1), (2, -2)] ∧
    ∀ r ∈ ragTopPairs [0, -1, -2], r.2 < SIMILARITIES_RESULTS_THRESHOLD := by
  constructor
  · decide
  · intro r hr
    fin_cases hr <;> norm_num [SIMILARITIES_RESULTS_THRESHOLD]

/-- C2 (amended): in the semantic-search template (stable-sort model of
`sort_values`) equal-scoring rows are returned in input order; in the RAG
template (stable model of `argsort`) the `[-K:][::-1]` selection returns
equal-scoring chunks in *reverse* input order. -/
theorem retrieval_tie_breaking (sims : List ℚ) :
    (get_similar_videos sims 5).Pairwise (fun a b => a.2 = b.2 → a.1 < b.1) ∧
    (ragTopPairs sims).Pairwise (fun a b => a.2 = b.2 → b.1 < a.1) := by
  constructor
  · refine (get_similar_videos_sorted_lex sims 5).imp ?_
    intro a b hab heq
    rcases hab with h | ⟨_, h⟩
    · exact absurd h (by rw [heq]; exact lt_irrefl _)
    · exact h
  · refine (ragTopPairs_sorted_flipLex sims).imp ?_
    intro a b hab heq
    rcases hab with h | ⟨_, h⟩
    · exact absurd h (by rw [heq]; exact lt_irrefl _)
    · exact h

/-- Witness for C2 (amended) at the concrete similarity column
`[0.8, 0.8, 0.9, 0.8]` (three tied rows). -/
theorem retrieval_tie_breaking_witness :
    (get_similar_videos [0.8, 0.8, 0.9, 0.8] 5).Pairwise (fun a b => a.2 = b.2 → a.1 < b.1) ∧
    (ragTopPairs [0.8, 0.8, 0.9, 0.8]).Pairwise (fun a b => a.2 = b.2 → b.1 < a.1) :=
  retrieval_tie_breaking [0.8, 0.8, 0.9, 0.8]

/-- Counterexample to C2 as stated: with four chunks all scoring exactly the
same, stable-input-order tie-breaking would return chunks 0, 1, 2 in that
order; the RAG template instead returns chunks 3, 2, 1 — the earliest chunk is
excluded from the top-K and the retained ties appear in reverse input order. -/
theorem rag_tie_order_reversed :
    (ragTopPairs [0, 0, 0, 0]).map Prod.fst = [3, 2, 1] := by
  decide

/-! ## Cosine similarity — `semantic-search-app/app.py` lines 107-109

`def cosine_similarity(a, b): return np.dot(a, b) / (np.linalg.norm(a) * np.linalg.norm(b))`

Vectors are modelled as lists of reals (exact arithmetic; the script uses
binary floating point). -/

/-- Model of `np.dot(a, b)`: the sum of componentwise products. -/
def npDot (a b : List ℝ) : ℝ := (List.zipWith (· * ·) a b).sum

/-- Model of `np.linalg.norm(a)`: the Euclidean magnitude `sqrt(Σ aᵢ²)`. -/
noncomputable def npNorm (a : List ℝ) : ℝ := Real.sqrt (npDot a a)

/-- Function `cosine_similarity` from `semantic-search-app/app.py`: the dot product
divided by the product of the magnitudes, with no guard on the denominator. -/
noncomputable def cosine_similarity (a b : List ℝ) : ℝ :=
  npDot a b / (npNorm a * npNorm b)

theorem npDot_self_nonneg (a : List ℝ) : 0 ≤ npDot a a := by
  induction a with
  | nil => simp [npDot]
  | cons x l ih =>
    simp only [npDot, List.zipWith_cons_cons, List.sum_cons] at ih ⊢
    exact add_nonneg (mul_self_nonneg x) ih

theorem npDot_self_pos {a : List ℝ} (h : ∃ x ∈ a, x ≠ 0) : 0 < npDot a a := by
  induction a with
  | nil => simp at h
  | cons x l ih =>
    simp only [npDot, List.zipWith_cons_cons, List.sum_cons]
    obtain ⟨y, hy, hne⟩ := h
    rcases List.mem_cons.mp hy with rfl | hy'
    · exact add_pos_of_pos_of_nonneg (mul_self_pos.mpr hne) (npDot_self_nonneg l)
    · exact add_pos_of_nonneg_of_pos (mul_self_nonneg x) (ih ⟨y, hy', hne⟩)

/-- C5: in exact arithmetic, the cosine similarity of every nonzero vector
with itself equals 1, and the cosine similarity of every pair of nonzero
vectors with zero dot product equals 0. -/
theorem cosine_self_one_orthogonal_zero :
    (∀ a : List ℝ, (∃ x ∈ a, x ≠ 0) → cosine_similarity a a = 1) ∧
    (∀ a b : List ℝ, (∃ x ∈ a, x ≠ 0) → (∃ x ∈ b, x ≠ 0) →
      npDot a b = 0 → cosine_similarity a b = 0) := by
  constructor
  · intro a ha
    have hpos := npDot_self_pos ha
    unfold cosine_similarity npNorm
    rw [Real.mul_self_sqrt hpos.le]
    exact div_self hpos.ne'
  · intro a b _ _ hdot
    unfold cosine_similarity
    rw [hdot, zero_div]

/-- Witness for C5 at the concrete vectors `[3, 4]` (with itself) and
`[1, 0]`, `[0, 1]` (orthogonal pair). -/
theorem cosine_self_one_orthogonal_zero_witness :
    cosine_similarity [(3 : ℝ), 4] [3, 4] = 1 ∧
    cosine_similarity [(1 : ℝ), 0] [0, 1] = 0 :=
  ⟨cosine_self_one_orthogonal_zero.1 [3, 4] ⟨3, by simp, by norm_num⟩,
    cosine_self_one_orthogonal_zero.2 [1, 0] [0, 1]
      ⟨1, by simp, by norm_num⟩ ⟨1, by simp, by norm_num⟩
      (by simp [npDot])⟩

/-- C10: `cosine_similarity` has no guard on its denominator
`np.linalg.norm(a) * np.linalg.norm(b)`: for every zero vector the denominator
is exactly 0 (a division by zero in the script), and the denominator is
nonzero precisely under the precondition that both vectors have a nonzero
component. -/
theorem cosine_denominator_unguarded :
    (∀ (n : ℕ) (b : List ℝ), npNorm (List.replicate n 0) * npNorm b = 0) ∧
    (∀ a b : List ℝ, (∃ x ∈ a, x ≠ 0) → (∃ x ∈ b, x ≠ 0) →
      npNorm a * npNorm b ≠ 0) := by
  constructor
  · intro n b
    have hz : npDot (List.replicate n 0) (List.replicate n 0) = 0 := by
      induction n with
      | zero => simp [npDot]
      | succ m ih =>
        simp only [List.replicate_succ, npDot, List.zipWith_cons_cons,
          List.sum_cons] at ih ⊢
        simp [ih]
    unfold npNorm
    rw [hz, Real.sqrt_zero, zero_mul]
  · intro a b ha hb
    have hna : 0 < npNorm a := Real.sqrt_pos.mpr (npDot_self_pos ha)
    have hnb : 0 < npNorm b := Real.sqrt_pos.mpr (npDot_self_pos hb)
    exact (mul_pos hna hnb).ne'

/-- Witness for C10 at the concrete zero vector `[0, 0]` and the nonzero pair
`[1, 0]`, `[0, 1]`. -/
theorem cosine_denominator_unguarded_witness :
    npNorm (List.replicate 2 0) * npNorm [(1 : ℝ)] = 0 ∧
    npNorm [(1 : ℝ), 0] * npNorm [(0 : ℝ), 1] ≠ 0 :=
  ⟨cosine_denominator_unguarded.1 2 [1],
    cosine_denominator_unguarded.2 [1, 0] [0, 1]
      ⟨1, by simp, by norm_num⟩ ⟨1, by simp, by norm_num⟩⟩

/-! ## Empty-result handling (C6)

Console output is modelled as data: each branch of the source that prints a
distinct kind of message becomes a distinct constructor. -/

/-- Outcome of `display_results` in `semantic-search-app/app.py` lines 92-105:
either the "No videos found similar to ..." message (line 95) or the listing
of the result rows. -/
inductive SearchDisplay where
  | noResults (query : String)
  | resultsList (videos : List (ℕ × ℚ)) (query : String)
  deriving DecidableEq

/-- Function `display_results` from `semantic-search-app/app.py`:
`if videos.empty: print("No videos found ..."); return` else print each row. -/
def display_results (videos : List (ℕ × ℚ)) (query : String) : SearchDisplay :=
  if videos.isEmpty then .noResults query else .resultsList videos query

/-- Outcome of one search in `interactive_qa_loop` of
`semantic-kernel-rag-app/app.py` lines 133-149: the "could not find any
relevant information" message when the joined context is empty (lines
136-138), or an answer generated from the context. -/
inductive QaReply where
  | noRelevantInfo
  | generatedAnswer (context : String)
  deriving DecidableEq

/-- The context-or-no-results branch of `interactive_qa_loop` in
`semantic-kernel-rag-app/app.py`:
`context = "\n".join([r.text for r in results]); if not context: ... continue`. -/
def qa_iteration (results : List String) : QaReply :=
  let context := String.intercalate "\n" results
  if context.isEmpty then .noRelevantInfo else .generatedAnswer context

/-- C6 (amended): the semantic-search template turns an empty result set —
in particular one produced when every row scores below the threshold — into
an explicit no-results message, and so does the semantic-kernel template; the
rag-chat template has no such branch (see the counterexample). -/
theorem noresults_explicit_outcomes :
    (∀ q, display_results [] q = SearchDisplay.noResults q) ∧
    (∀ (sims : List ℚ) q, (∀ s ∈ sims, s < SIMILARITIES_RESULTS_THRESHOLD) →
      display_results (get_similar_videos sims 5) q = SearchDisplay.noResults q) ∧
    qa_iteration [] = QaReply.noRelevantInfo := by
  refine ⟨fun q => rfl, ?_, rfl⟩
  intro sims q hbelow
  have hfil : (idxFrom 0 sims).filter
      (fun r => decide (SIMILARITIES_RESULTS_THRESHOLD ≤ r.2)) = [] := by
    rw [List.filter_eq_nil_iff]
    intro p hp
    have := hbelow p.2 (mem_idxFrom_snd sims 0 hp)
    simpa using not_le.mpr this
  unfold display_results get_similar_videos
  rw [hfil]
  simp [sort_values_desc]

/-- Witness for C6 (amended) at the concrete all-below-threshold similarity
column `[0, 0]`. -/
theorem noresults_explicit_outcomes_witness :
    display_results (get_similar_videos [0, 0] 5) "q" = SearchDisplay.noResults "q" :=
  noresults_explicit_outcomes.2.1 [0, 0] "q"
    (by intro s hs; fin_cases hs <;> norm_num [SIMILARITIES_RESULTS_THRESHOLD])

/-- Counterexample to C6 as stated: `retrieve_context` in `rag-chat-app`
produces no "no results" outcome.  With every chunk scoring 0 or below
(below any positive threshold) it still returns the three chunks joined into
a normal context string, which `main` passes straight to `generate_response`. -/
theorem rag_no_noresults_branch :
    retrieve_context [0, -1, -2] ["alpha", "beta", "gamma"] =
      "alpha\n\n---\n\nbeta\n\n---\n\ngamma" ∧
    ∀ s ∈ [(0 : ℚ), -1, -2], s < SIMILARITIES_RESULTS_THRESHOLD := by
  constructor
  · decide
  · intro s hs
    fin_cases hs <;> norm_num [SIMILARITIES_RESULTS_THRESHOLD]

/-! ## Interactive-loop iterations (C7, C9)

One iteration of each template's `while True:` loop, given the line read from
`input()` and the result of the iteration's fallible work (the API/SDK calls),
modelled as `Except String String` (error message or answer text). -/

/-- What one loop iteration does. -/
inductive LoopOutcome where
  /-- The user typed `exit` (case-insensitively): the loop breaks normally. -/
  | exited
  /-- The body succeeded and its answer was printed. -/
  | answered (answer : String)
  /-- The exception was caught, its message printed, and the loop continues. -/
  | caughtContinue (err : String)
  /-- The exception was caught, its message printed, and the loop breaks. -/
  | caughtBreak (err : String)
  /-- The exception was not caught: it propagates out of the loop. -/
  | uncaught (err : String)
  deriving DecidableEq

/-- Python's `str.lower()` (ASCII range, which covers the comparisons the
templates make), written as a direct map over the characters. -/
def pyLower (s : String) : String := String.mk (s.data.map Char.toLower)

/-- Common shape of the templates' loop iterations:
`if user_input.lower() == 'exit': break`, then run the body; `onError` is what
the template's (possible) `except` clause does with an exception. -/
def loop_step (onError : String → LoopOutcome) (input : String)
    (body : Except String String) : LoopOutcome :=
  if pyLower input = "exit" then .exited
  else
    match body with
    | .ok a => .answered a
    | .error e => onError e

/-- Loop iteration of `basic-chat-app/app.py` lines 45-69: the `except`
clause prints the error and then `break`s. -/
def basic_chat_step : String → Except String String → LoopOutcome :=
  loop_step (fun e => .caughtBreak e)

/-- Loop iteration of `rag-chat-app/app.py` lines 59-75: the `except` clause
prints the error and the loop continues. -/
def rag_chat_step : String → Except String String → LoopOutcome :=
  loop_step (fun e => .caughtContinue e)

/-- Loop iteration of `semantic-search-app/app.py` lines 54-64. -/
def semantic_search_step : String → Except String String → LoopOutcome :=
  loop_step (fun e => .caughtContinue e)

/-- Loop iteration of `semantic-kernel-rag-app/app.py` lines 124-152. -/
def semantic_kernel_step : String → Except String String → LoopOutcome :=
  loop_step (fun e => .caughtContinue e)

/-- Loop iteration of `function-calling-app/app.py` lines 69-129. -/
def function_calling_step : String → Except String String → LoopOutcome :=
  loop_step (fun e => .caughtContinue e)

/-- Loop iteration of `basic-agent-app/app.py` lines 53-89. -/
def basic_agent_step : String → Except String String → LoopOutcome :=
  loop_step (fun e => .caughtContinue e)

/-- Loop iteration of `agent-lite-app/app.py` lines 82-94. -/
def agent_lite_step : String → Except String String → LoopOutcome :=
  loop_step (fun e => .caughtContinue e)

/-- Loop iteration of `huggingface-inference-app/app.py` lines 55-70: the
loop body has **no** `try`/`except`, so an exception from the text-generation
pipeline propagates out of the loop. -/
def huggingface_step : String → Except String String → LoopOutcome :=
  loop_step (fun e => .uncaught e)

theorem loop_step_error {f : String → LoopOutcome} {input e : String}
    (h : pyLower input ≠ "exit") :
    loop_step f input (.error e) = f e := by
  simp [loop_step, h]

theorem loop_step_not_uncaught {f : String → LoopOutcome}
    (hf : ∀ e e', f e ≠ .uncaught e') (input : String)
    (body : Except String String) (e' : String) :
    loop_step f input body ≠ .uncaught e' := by
  unfold loop_step
  split
  · simp
  · match body with
    | .ok a => simp
    | .error e => exact hf e e'

/-- C7 (amended): in seven of the eight templates with an interactive loop,
every exception in the loop body is caught and printed — the loop then
continues, except in `basic-chat-app` where it breaks — and no iteration ever
lets an exception propagate; the `huggingface-inference-app` loop has no
`except` clause, so every exception there propagates out of the loop. -/
theorem loop_exception_policy :
    (∀ input body e, basic_chat_step input body ≠ LoopOutcome.uncaught e) ∧
    (∀ input body e, rag_chat_step input body ≠ LoopOutcome.uncaught e) ∧
    (∀ input body e, semantic_search_step input body ≠ LoopOutcome.uncaught e) ∧
    (∀ input body e, semantic_kernel_step input body ≠ LoopOutcome.uncaught e) ∧
    (∀ input body e, function_calling_step input body ≠ LoopOutcome.uncaught e) ∧
    (∀ input body e, basic_agent_step input body ≠ LoopOutcome.uncaught e) ∧
    (∀ input body e, agent_lite_step input body ≠ LoopOutcome.uncaught e) ∧
    (∀ input e, pyLower input ≠ "exit" →
      basic_chat_step input (.error e) = LoopOutcome.caughtBreak e) ∧
    (∀ input e, pyLower input ≠ "exit" →
      rag_chat_step input (.error e) = LoopOutcome.caughtContinue e) ∧
    (∀ input e, pyLower input ≠ "exit" →
      huggingface_step input (.error e) = LoopOutcome.uncaught e) := by
  refine ⟨?_, ?_, ?_, ?_, ?_, ?_, ?_, ?_, ?_, ?_⟩
  · exact fun input body e =>
      loop_step_not_uncaught (by intro e e'; simp) input body e
  · exact fun input body e =>
      loop_step_not_uncaught (by intro e e'; simp) input body e
  · exact fun input body e =>
      loop_step_not_uncaught (by intro e e'; simp) input body e
  · exact fun input body e =>
      loop_step_not_uncaught (by intro e e'; simp) input body e
  · exact fun input body e =>
      loop_step_not_uncaught (by intro e e'; simp) input body e
  · exact fun input body e =>
      loop_step_not_uncaught (by intro e e'; simp) input body e
  · exact fun input body e =>
      loop_step_not_uncaught (by intro e e'; simp) input body e
  · exact fun input e h => loop_step_error h
  · exact fun input e h => loop_step_error h
  · exact fun input e h => loop_step_error h

/-- Witness for C7 (amended) at a concrete iteration: input "hello", body
raising "boom". -/
theorem loop_exception_policy_witness :
    basic_chat_step "hello" (.error "boom") = LoopOutcome.caughtBreak "boom" ∧
    rag_chat_step "hello" (.error "boom") = LoopOutcome.caughtContinue "boom" :=
  ⟨loop_exception_policy.2.2.2.2.2.2.2.1 "hello" "boom" (by decide),
    loop_exception_policy.2.2.2.2.2.2.2.2.1 "hello" "boom" (by decide)⟩

/-- Counterexample to C7 as stated: the `huggingface-inference-app` loop
(lines 55-70) is an interactive loop with no `try`/`except`; an exception
raised by the body propagates out of the loop uncaught. -/
theorem huggingface_loop_uncaught :
    huggingface_step "hello" (.error "model failure") =
      LoopOutcome.uncaught "model failure" := by
  decide

/-! ## Startup configuration checks (C8)

`os.getenv` returns `None` or a string; `all([...])` is false when any value
is `None` or the empty string.  Each template's startup is modelled up to the
point where it either returns early, raises, or proceeds to initialize its
client. -/

/-- How a template's `main` leaves its startup phase. -/
inductive StartupOutcome where
  /-- Printed a user-facing error message and returned early. -/
  | earlyReturn
  /-- Proceeded past the configuration check. -/
  | proceed
  /-- An exception escaped the startup code. -/
  | raised
  deriving DecidableEq

/-- Python truthiness of an `os.getenv` result: `None` and `""` are falsy. -/
def isTruthy : Option String → Bool
  | none => false
  | some s => !s.isEmpty

/-- Startup check of `basic-chat-app/app.py` lines 16-26:
`if not all([api_key, azure_endpoint, deployment_name]): print(...); return`. -/
def basic_chat_startup (apiKey endpoint deployment : Option String) : StartupOutcome :=
  if isTruthy apiKey && isTruthy endpoint && isTruthy deployment then .proceed
  else .earlyReturn

/-- Startup check of `rag-chat-app/app.py` lines 18-25 (four variables). -/
def rag_chat_startup (apiKey endpoint embDeployment chatDeployment : Option String) :
    StartupOutcome :=
  if isTruthy apiKey && isTruthy endpoint && isTruthy embDeployment &&
      isTruthy chatDeployment then .proceed
  else .earlyReturn

/-- Startup check of `semantic-search-app/app.py` lines 21-27. -/
def semantic_search_startup (apiKey endpoint embDeployment : Option String) :
    StartupOutcome :=
  if isTruthy apiKey && isTruthy endpoint && isTruthy embDeployment then .proceed
  else .earlyReturn

/-- Startup check of `function-calling-app/app.py` lines 25-31. -/
def function_calling_startup (apiKey endpoint chatDeployment : Option String) :
    StartupOutcome :=
  if isTruthy apiKey && isTruthy endpoint && isTruthy chatDeployment then .proceed
  else .earlyReturn

/-- Startup check of `basic-agent-app/app.py` lines 28-34. -/
def basic_agent_startup (apiKey endpoint chatDeployment : Option String) :
    StartupOutcome :=
  if isTruthy apiKey && isTruthy endpoint && isTruthy chatDeployment then .proceed
  else .earlyReturn

/-- Startup check of `agent-lite-app/app.py` lines 69-72:
`if not os.getenv("OPENAI_API_KEY"): print(...); return`. -/
def agent_lite_startup (apiKey : Option String) : StartupOutcome :=
  if isTruthy apiKey then .proceed else .earlyReturn

/-- Startup check of `huggingface-inference-app/app.py` lines 11-17. -/
def huggingface_startup (hfApiKey : Option String) : StartupOutcome :=
  if isTruthy hfApiKey then .proceed else .earlyReturn

/-- Startup of `initialize_kernel_and_memory` in
`semantic-kernel-rag-app/app.py` lines 30-55.  The template performs **no**
check of its own: it reads `USE_AZURE_OPENAI` (default `"False"`) and then
calls the SDK settings loaders (`sk.azure_openai_settings_from_dot_env` /
`sk.openai_settings_from_dot_env`), which raise an exception when the
settings are missing from the environment; the loaders are modelled as
`Option` parameters, `none` meaning the settings are absent. -/
def semantic_kernel_startup (useAzureEnv : Option String)
    (azureSettings : Option (String × String × String))
    (openaiSettings : Option (String × String)) : StartupOutcome :=
  let useAzure := pyLower (useAzureEnv.getD "False") = "true"
  if useAzure then
    match azureSettings with
    | none => .raised
    | some _ => .proceed
  else
    match openaiSettings with
    | none => .raised
    | some _ => .proceed

/-- C8 (amended): seven templates check their required environment variables
once at startup and return early with a user-facing message when any is
missing or empty; the semantic-kernel template has no startup check — missing
settings surface as an exception raised by the SDK settings loaders. -/
theorem startup_config_checks :
    (∀ a e d, (isTruthy a && isTruthy e && isTruthy d) = false →
      basic_chat_startup a e d = StartupOutcome.earlyReturn) ∧
    (∀ a e d c, (isTruthy a && isTruthy e && isTruthy d && isTruthy c) = false →
      rag_chat_startup a e d c = StartupOutcome.earlyReturn) ∧
    (∀ a e d, (isTruthy a && isTruthy e && isTruthy d) = false →
      semantic_search_startup a e d = StartupOutcome.earlyReturn) ∧
    (∀ a e d, (isTruthy a && isTruthy e && isTruthy d) = false →
      function_calling_startup a e d = StartupOutcome.earlyReturn) ∧
    (∀ a e d, (isTruthy a && isTruthy e && isTruthy d) = false →
      basic_agent_startup a e d = StartupOutcome.earlyReturn) ∧
    (∀ a, isTruthy a = false → agent_lite_startup a = StartupOutcome.earlyReturn) ∧
    (∀ a, isTruthy a = false → huggingface_startup a = StartupOutcome.earlyReturn) ∧
    (∀ u, semantic_kernel_startup u none none = StartupOutcome.raised) := by
  refine ⟨?_, ?_, ?_, ?_, ?_, ?_, ?_, ?_⟩
  · intro a e d h
    simp [basic_chat_startup, h]
  · intro a e d c h
    simp [rag_chat_startup, h]
  · intro a e d h
    simp [semantic_search_startup, h]
  · intro a e d h
    simp [function_calling_startup, h]
  · intro a e d h
    simp [basic_agent_startup, h]
  · intro a h
    simp [agent_lite_startup, h]
  · intro a h
    simp [huggingface_startup, h]
  · intro u
    unfold semantic_kernel_startup
    by_cases hu : pyLower (u.getD "False") = "true" <;> simp [hu]

/-- Witness for C8 (amended) with every environment variable absent. -/
theorem startup_config_checks_witness :
    basic_chat_startup none none none = StartupOutcome.earlyReturn ∧
    semantic_kernel_startup none none none = StartupOutcome.raised :=
  ⟨startup_config_checks.1 none none none (by decide),
    startup_config_checks.2.2.2.2.2.2.2 none⟩

/-- Counterexample to C8 as stated: with no configuration set, the
semantic-kernel template's startup raises (inside the SDK settings loader)
instead of printing a message and returning early. -/
theorem semantic_kernel_startup_raises :
    semantic_kernel_startup none none none = StartupOutcome.raised ∧
    semantic_kernel_startup none none none ≠ StartupOutcome.earlyReturn := by
  decide

/-! ## Per-template script structure (C9) -/

/-- Function `greet` from `basic-gradio-app/app.py` lines 3-4 — the only behavior the
template defines; the script has no `main` function, loads no environment
variables, and runs a Gradio web interface instead of a console loop. -/
def greet (name : String) : String := "Hello, " ++ name ++ "!"

/-- Function `main` from `azure-pytorch-dsvm/main.py`, as the list of lines it prints:
it reads no environment variables and no user input, and has no loop. -/
def azure_pytorch_main (version : String) (cudaAvailable : Bool)
    (gpuNames : List String) : List String :=
  ("PyTorch Version: " ++ version) ::
    "TorchVision Version: N/A" ::
    ("CUDA (NVIDIA GPU) Available: " ++ (if cudaAvailable then "True" else "False")) ::
    (if cudaAvailable then
      ("Number of GPUs: " ++ toString gpuNames.length) ::
        (List.range gpuNames.length).map
          (fun i => "  GPU " ++ toString i ++ ": " ++ gpuNames.getD i "")
    else
      ["\nRunning on CPU. For accelerated training, consider using a workspace with a GPU."])

/-- Function `simple_ml_pipeline` from `zenml-basic-pipeline/run_pipeline.py`, as the
console trace of the pipeline run (the accuracy line of `evaluate_model` is a
parameter): it reads no environment variables and no user input, and has no
interactive loop. -/
def simple_ml_pipeline (accuracyLine : String) : List String :=
  ["Starting ML pipeline...", "Creating dataset...", "Training model...",
    "Evaluating model...", accuracyLine, "ML pipeline finished."]

/-- C9 (amended): the eight API-driven templates each run an interactive loop
that terminates when the user enters `exit` (case-insensitively); the
basic-gradio template instead serves a `greet` handler that greets any input
— including the string "exit" —, and the azure-pytorch-dsvm and
zenml-basic-pipeline templates print a fixed report/trace with no input loop
at all. -/
theorem template_repl_structure :
    (∀ b, basic_chat_step "exit" b = LoopOutcome.exited) ∧
    (∀ b, rag_chat_step "exit" b = LoopOutcome.exited) ∧
    (∀ b, semantic_search_step "exit" b = LoopOutcome.exited) ∧
    (∀ b, semantic_kernel_step "exit" b = LoopOutcome.exited) ∧
    (∀ b, function_calling_step "exit" b = LoopOutcome.exited) ∧
    (∀ b, basic_agent_step "exit" b = LoopOutcome.exited) ∧
    (∀ b, agent_lite_step "exit" b = LoopOutcome.exited) ∧
    (∀ b, huggingface_step "exit" b = LoopOutcome.exited) ∧
    greet "exit" = "Hello, exit!" ∧
    (∀ v, azure_pytorch_main v false [] =
      ["PyTorch Version: " ++ v, "TorchVision Version: N/A",
        "CUDA (NVIDIA GPU) Available: False",
        "\nRunning on CPU. For accelerated training, consider using a workspace with a GPU."]) ∧
    (∀ acc, simple_ml_pipeline acc =
      ["Starting ML pipeline...", "Creating dataset...", "Training model...",
        "Evaluating model...", acc, "ML pipeline finished."]) := by
  have hexit : ∀ (f : String → LoopOutcome) (b : Except String String),
      loop_step f "exit" b = LoopOutcome.exited := by
    intro f b
    unfold loop_step
    rw [if_pos (by decide)]
  exact ⟨fun b => hexit _ b, fun b => hexit _ b, fun b => hexit _ b,
    fun b => hexit _ b, fun b => hexit _ b, fun b => hexit _ b,
    fun b => hexit _ b, fun b => hexit _ b, rfl,
    fun v => rfl, fun acc => rfl⟩

/-- Counterexample to C9 as stated: not every template is a script with a
`main`, environment loading and an `exit`-terminated read-eval-print loop.
The basic-gradio template's only input handler, `greet`, responds to the
input "exit" with a greeting; the script defines no `main` and no loop. -/
theorem gradio_greets_exit : greet "exit" = "Hello, exit!" := rfl

end VibeCode
